import Mathlib

/-
Shallow embedding of the tinytowns library (src/lib.rs).

The board is a 16-element array of optional pieces indexed by
`x * BOARD_WIDTH + y`.  Rust array indexing panics when the index is out of
range; we model a possible panic by an explicit `panicked` outcome (for
`place_piece` / `place_building`) or by `Option` (for `get_piece`).

`HashSet<Pattern>` is modelled as a duplicate-free list built by
insertion-ordered `insert` (membership test before append); the set of
elements agrees with the Rust `HashSet`, only the iteration order is fixed
here where Rust leaves it unspecified.  All claims settled below are
insensitive to that order.

Rust `u8` values never exceed 255 and the arithmetic performed on them here
(`x * 4 + y` after the bounds checks, pattern widths/heights at most 3)
never overflows, so `Nat` models them faithfully on every reachable input.
-/

set_option autoImplicit false

namespace TinyTowns

/-- `const BOARD_WIDTH: u8 = 4;` -/
def BOARD_WIDTH : Nat := 4

/-- `const BOARD_HEIGHT: u8 = 4;` -/
def BOARD_HEIGHT : Nat := 4

/-- All resources available for a space to have. -/
inductive Resource where
  | Brick
  | Glass
  | Stone
  | Wheat
  | Wood
  deriving DecidableEq, Repr

/-- All buildings in the game. -/
inductive Building where
  | Well
  | Theater
  | TradingPost
  deriving DecidableEq, Repr

/-- A piece on the board: a resource cube or a placed building. -/
inductive Piece where
  | Cube (r : Resource)
  | Structure (b : Building)
  deriving DecidableEq, Repr

/-- Errors associated with Tiny Towns. -/
inductive TinyTownsError where
  | Occupied
  | OutOfBounds
  deriving DecidableEq, Repr

/-- The board: `[Option<Piece>; 16]`, modelled as a list (length 16 on every
value the library constructs). -/
structure Board where
  board : List (Option Piece)
  deriving DecidableEq, Repr

/-- Outcome of a mutating board operation, in state-passing style.  `error`
carries the board state at the early `return`, which the Rust code has not
modified at that point; `panicked` models a Rust index-out-of-range panic. -/
inductive PlaceOutcome where
  | panicked
  | error (e : TinyTownsError) (b : Board)
  | ok (b : Board)
  deriving DecidableEq, Repr

namespace Board

/-- `Board::new()` -/
def new : Board := ⟨List.replicate 16 none⟩

/-- `Board::get_board_index`: `x * BOARD_WIDTH + y`. -/
def get_board_index (x y : Nat) : Nat := x * BOARD_WIDTH + y

/-- `Board::get_piece`: reads `self.board[index]`; `none` models the Rust
panic when the index is out of range. -/
def get_piece (b : Board) (x y : Nat) : Option (Option Piece) :=
  b.board.get? (get_board_index x y)

/-- `Board::place_piece`.  Note the source bounds check is `x > BOARD_WIDTH
|| y > BOARD_HEIGHT` (strict `>`), exactly as written in the Rust. -/
def place_piece (b : Board) (x y : Nat) (resource : Resource) : PlaceOutcome :=
  if x > BOARD_WIDTH ∨ y > BOARD_HEIGHT then
    .error .OutOfBounds b
  else
    let index := get_board_index x y
    match b.board.get? index with
    | none => .panicked
    | some cell =>
      if cell.isSome then
        .error .Occupied b
      else
        .ok ⟨b.board.set index (some (.Cube resource))⟩

/-- `Board::place_building`: identical shape to `place_piece` but stores a
`Structure`. -/
def place_building (b : Board) (x y : Nat) (building : Building) : PlaceOutcome :=
  if x > BOARD_WIDTH ∨ y > BOARD_HEIGHT then
    .error .OutOfBounds b
  else
    let index := get_board_index x y
    match b.board.get? index with
    | none => .panicked
    | some cell =>
      if cell.isSome then
        .error .Occupied b
      else
        .ok ⟨b.board.set index (some (.Structure building))⟩

end Board

/-- A building footprint: a grid of optional resources plus derived
width/height. -/
structure Pattern where
  coords : List (List (Option Resource))
  width : Nat
  height : Nat
  deriving DecidableEq, Repr

/-- `Pattern::new`: `width` is the maximum row length (the Rust `.max()
.unwrap()` panics on an empty grid, never reached; `foldr max 0` agrees with
it on every non-empty grid), `height` the number of rows. -/
def Pattern.new (coords : List (List (Option Resource))) : Pattern :=
  { coords := coords
    width := (coords.map List.length).foldr max 0
    height := coords.length }

namespace Building

/-- `Building::pattern`: the canonical footprint of each building. -/
def pattern : Building → Pattern
  | .Well => Pattern.new [[some .Wood, some .Stone]]
  | .Theater => Pattern.new
      [[none, some .Stone, none],
       [some .Wood, some .Glass, some .Wood]]
  | .TradingPost => Pattern.new
      [[some .Stone, some .Wood, none],
       [some .Stone, some .Wood, some .Brick]]

/-- The transposed grid built inside `rotations()`: row `w`, column `h` is
`coords[h][w]`, ranging over the input pattern's recorded width and height.
Rust indexing would panic out of range; the `getD` defaults are never hit on
the rectangular grids this library builds. -/
def transposedGrid (p : Pattern) : List (List (Option Resource)) :=
  (List.range p.width).map fun w =>
    (List.range p.height).map fun h => ((p.coords.getD h []).getD w none)

/-- `HashSet::insert` on the list model: append iff not already present. -/
def hsInsert (acc : List Pattern) (q : Pattern) : List Pattern :=
  if q ∈ acc then acc else acc ++ [q]

/-- The eight candidate grids `rotations()` inserts, generated from an
arbitrary start pattern `p`, in source insertion order: identity,
row-reverse (horizontal flip), per-row reverse (vertical flip), both, the
transposed grid, and its three reversals. -/
def orbit8 (p : Pattern) : List Pattern :=
  let rotation := transposedGrid p
  [ Pattern.new p.coords,
    Pattern.new p.coords.reverse,
    Pattern.new (p.coords.map List.reverse),
    Pattern.new (p.coords.reverse.map List.reverse),
    Pattern.new rotation,
    Pattern.new rotation.reverse,
    Pattern.new (rotation.map List.reverse),
    Pattern.new (rotation.reverse.map List.reverse)
  ].foldl hsInsert []

/-- `Building::rotations`: the candidate grids generated from the canonical
pattern, deduplicated. -/
def rotations (b : Building) : List Pattern := orbit8 b.pattern

/-- One step of the cyclic iterator `coords.iter().flatten().cycle()`: the
`k`-th `next()` yields element `k mod length` of the flattened grid (the
Rust `.unwrap()` panics only on an empty grid, never reached; the `getD`
default is never hit for `l ≠ []`). -/
def cycleGet (l : List (Option Resource)) (k : Nat) : Option Resource :=
  l.getD (k % l.length) none

/-- The anchors the two `for`/`break` loops in `patterns()` visit, in
visit order: `curr_x` outer, `curr_y` inner, each range cut short by the
`break` (modelled by `takeWhile`, exact because the bound predicate is
monotone in the loop variable). -/
def anchorsFor (p : Pattern) : List (Nat × Nat) :=
  (((List.range BOARD_WIDTH).takeWhile fun cx =>
      ¬ (cx + (p.width - 1) ≥ BOARD_WIDTH)).map fun cx =>
    ((List.range BOARD_HEIGHT).takeWhile fun cy =>
        ¬ (cy + (p.height - 1) ≥ BOARD_HEIGHT)).map fun cy => (cx, cy)).flatten

/-- The template pushed for one anchor: `tmp_y` outer, `tmp_x` inner, each
cell drawn from the shared cyclic iterator whose counter stands at `start`
when this anchor begins. -/
def templateAt (fl : List (Option Resource)) (w h start cx cy : Nat) :
    List ((Nat × Nat) × Option Resource) :=
  ((List.range h).map fun dy =>
    (List.range w).map fun dx =>
      ((cx + dx, cy + dy), cycleGet fl (start + (dy * w + dx)))).flatten

/-- All templates `patterns()` pushes for one oriented pattern: the cyclic
iterator is created fresh per pattern and consumes `width * height` cells
per anchor, so anchor number `i` starts at counter `i * width * height`. -/
def templatesFor (p : Pattern) : List (List ((Nat × Nat) × Option Resource)) :=
  (anchorsFor p).enum.map fun ia =>
    templateAt p.coords.flatten p.width p.height (ia.1 * (p.width * p.height))
      ia.2.1 ia.2.2

/-- `Building::patterns`: every placement template, over every oriented
pattern of the building. -/
def patterns (b : Building) : List (List ((Nat × Nat) × Option Resource)) :=
  (b.rotations.map templatesFor).flatten

end Building

/-- Spec-side: the anchors `(x, y)` with `x + (width − 1) < 4` and
`y + (height − 1) < 4`, transcribed from the specification's wording (a
filter over the full ranges, not the source's `break`), to be compared with
`Building.anchorsFor`. -/
def anchorsSpec (p : Pattern) : List (Nat × Nat) :=
  (((List.range 4).filter fun x => x + (p.width - 1) < 4).map fun x =>
    ((List.range 4).filter fun y => y + (p.height - 1) < 4).map fun y =>
      (x, y)).flatten

/-- Spec-side: the placement template the specification describes for
pattern `p` anchored at `(x, y)`: entry `(x+dx, y+dy)` paired with the cell
of `p` at local row `dy`, column `dx`, in row-major order. -/
def templateSpec (p : Pattern) (x y : Nat) : List ((Nat × Nat) × Option Resource) :=
  ((List.range p.height).map fun dy =>
    (List.range p.width).map fun dx =>
      ((x + dx, y + dy), (p.coords.getD dy []).getD dx none)).flatten

/-- Total cell count of a pattern grid: gaps and non-gaps alike. -/
def cellCount (p : Pattern) : Nat := (p.coords.map List.length).sum

/-- Play a placement template onto a fresh empty board: walk the entries in
order, calling `place_piece` at every non-gap entry; `none` as soon as any
call fails to return `ok` (error or panic). -/
def placeTemplate (t : List ((Nat × Nat) × Option Resource)) : Option Board :=
  t.foldl (fun acc e =>
    match acc, e.2 with
    | none, _ => none
    | some b, none => some b
    | some b, some r =>
      match Board.place_piece b e.1.1 e.1.2 r with
      | .ok b2 => some b2
      | _ => none) (some Board.new)

/-- The board obtained from an empty board by placing a Wood cube at
`(0, 0)` (that placement is verified in the claim C8 witness below). -/
def boardWithWood : Board :=
  ⟨(List.replicate 16 (none : Option Piece)).set 0 (some (.Cube .Wood))⟩

/-- Claim C1: for every Building, `patterns()` emits exactly one placement
template per pair of an oriented pattern `p` in the building's orientation
set and an anchor `(x, y)` with `x + (p.width − 1) < 4` and
`y + (p.height − 1) < 4`; within each template the entry for board
coordinate `(x+dx, y+dy)` is paired with the cell of `p` at local row `dy`,
column `dx`, in row-major order.  Stated as: the orientation list and each
anchor list are duplicate-free, and `patterns` equals the spec-side
enumeration template for template. -/
theorem claim_C1_patterns_one_template_per_anchor :
    ∀ b : Building,
      b.rotations.Nodup ∧
      (∀ p ∈ b.rotations, (anchorsSpec p).Nodup) ∧
      b.patterns = (b.rotations.map fun p =>
        (anchorsSpec p).map fun a => templateSpec p a.1 a.2).flatten := by
  intro b
  cases b <;> decide

/-- Witness for claim C1 at the Well's canonical orientation. -/
theorem claim_C1_witness : (anchorsSpec (Building.pattern .Well)).Nodup :=
  (claim_C1_patterns_one_template_per_anchor .Well).2.1
    (Building.pattern .Well) (by decide)

/-- Claim C2 (failing-input evaluation): the source bounds check is `x > 4
|| y > 4`, so the out-of-bounds coordinate `y = 4` is NOT rejected:
`place_piece(0, 4, Wood)` on an empty board returns `Ok` and silently
stores the cube at linear index 4 (the interior cell `x = 1, y = 0`), and
`place_piece(4, 0, …)` panics on an out-of-range array index — neither
returns `Err(OutOfBounds)` as the claim requires for `x ≥ 4` or `y ≥ 4`. -/
theorem claim_C2_place_bounds_off_by_one :
    Board.new.place_piece 0 4 .Wood =
      .ok ⟨(List.replicate 16 (none : Option Piece)).set 4 (some (.Cube .Wood))⟩ ∧
    Board.new.place_piece 4 0 .Wood = .panicked ∧
    Board.new.place_building 0 4 .Well =
      .ok ⟨(List.replicate 16 (none : Option Piece)).set 4 (some (.Structure .Well))⟩ ∧
    Board.new.place_building 4 0 .Well = .panicked := by
  decide

/-- Claim C3: for every Building, the orientation set is non-empty, its
size divides 8, it contains the canonical pattern, and every member has the
same total cell count as the canonical pattern. -/
theorem claim_C3_rotations_basic :
    ∀ b : Building,
      b.rotations ≠ [] ∧
      b.rotations.length ∣ 8 ∧
      b.pattern ∈ b.rotations ∧
      ∀ p ∈ b.rotations, cellCount p = cellCount b.pattern := by
  intro b
  cases b <;> decide

/-- Witness for claim C3 at the Well's vertical orientation. -/
theorem claim_C3_witness :
    cellCount (Pattern.new [[some .Wood], [some .Stone]]) =
      cellCount (Building.pattern .Well) :=
  (claim_C3_rotations_basic .Well).2.2.2
    (Pattern.new [[some .Wood], [some .Stone]]) (by decide)

/-- Claim C4: every coordinate occurring in every placement template of
every Building lies within `[0, 4) × [0, 4)`. -/
theorem claim_C4_patterns_in_bounds :
    ∀ b : Building, ∀ t ∈ b.patterns, ∀ e ∈ t, e.1.1 < 4 ∧ e.1.2 < 4 := by
  intro b
  cases b <;> decide

/-- Witness for claim C4 at the first entry of the Well's first template. -/
theorem claim_C4_witness :
    (((0, 0), some Resource.Wood) : (Nat × Nat) × Option Resource).1.1 < 4 ∧
      (((0, 0), some Resource.Wood) : (Nat × Nat) × Option Resource).1.2 < 4 :=
  claim_C4_patterns_in_bounds .Well
    [((0, 0), some .Wood), ((1, 0), some .Stone)] (by decide)
    ((0, 0), some .Wood) (by decide)

/-- Claim C5: playing any placement template of any Building onto a fresh
empty board — `place_piece` at each non-gap entry, in order — succeeds at
every entry (no `Occupied`, no `OutOfBounds`, no panic). -/
theorem claim_C5_placement_roundtrip :
    ∀ b : Building, ∀ t ∈ b.patterns, (placeTemplate t).isSome := by
  intro b
  cases b <;> decide

/-- Witness for claim C5 at the Well's first template. -/
theorem claim_C5_witness :
    (placeTemplate [((0, 0), some .Wood), ((1, 0), some .Stone)]).isSome :=
  claim_C5_placement_roundtrip .Well
    [((0, 0), some .Wood), ((1, 0), some .Stone)] (by decide)

/-- Claim C6: the symmetry orbit is closed — regenerating the eight
transformed grids from any member of a building's orientation set and
deduplicating yields exactly the same set as generating from the canonical
pattern (mutual inclusion of the two duplicate-free lists). -/
theorem claim_C6_orbit_closure :
    ∀ b : Building, ∀ q ∈ b.rotations,
      (∀ s ∈ Building.orbit8 q, s ∈ b.rotations) ∧
      (∀ s ∈ b.rotations, s ∈ Building.orbit8 q) := by
  intro b
  cases b <;> decide

/-- Witness for claim C6: regenerating from the Well's canonical pattern. -/
theorem claim_C6_witness :
    Building.pattern .Well ∈ Building.rotations .Well :=
  (claim_C6_orbit_closure .Well (Building.pattern .Well) (by decide)).1
    (Building.pattern .Well) (by decide)

/-- Claim C7: the Well has exactly 4 orientations and the TradingPost
exactly 8. -/
theorem claim_C7_rotation_counts :
    (Building.rotations .Well).length = 4 ∧
      (Building.rotations .TradingPost).length = 8 := by
  decide

/-- Claim C8: atomicity on `Occupied` — for every board and every in-bounds
coordinate whose cell already holds a piece, `place_piece` and
`place_building` both return `Err(Occupied)` with the board state entirely
unchanged (the `error` outcome carries the state at the early return, which
the code has not touched). -/
theorem claim_C8_occupied_atomic (b : Board) (x y : Nat) (r : Resource)
    (bl : Building) (p : Piece) (hx : x < 4) (hy : y < 4)
    (hocc : b.get_piece x y = some (some p)) :
    b.place_piece x y r = .error .Occupied b ∧
    b.place_building x y bl = .error .Occupied b := by
  have hcond : ¬ (x > BOARD_WIDTH ∨ y > BOARD_HEIGHT) := by
    simp only [BOARD_WIDTH, BOARD_HEIGHT]
    omega
  have hget : b.board.get? (Board.get_board_index x y) = some (some p) := hocc
  constructor <;>
    simp only [Board.place_piece, Board.place_building, if_neg hcond, hget,
      Option.isSome_some, if_pos]

/-- Witness for claim C8: Wood at `(0,0)`, then Brick (and a building)
refused with `Occupied`, the Wood cube still in place. -/
theorem claim_C8_witness :
    Board.new.place_piece 0 0 .Wood = .ok boardWithWood ∧
    boardWithWood.place_piece 0 0 .Brick = .error .Occupied boardWithWood ∧
    boardWithWood.place_building 0 0 .Well = .error .Occupied boardWithWood ∧
    boardWithWood.get_piece 0 0 = some (some (.Cube .Wood)) :=
  ⟨by decide,
   (claim_C8_occupied_atomic boardWithWood 0 0 .Brick .Well (.Cube .Wood)
      (by decide) (by decide) (by decide)).1,
   (claim_C8_occupied_atomic boardWithWood 0 0 .Brick .Well (.Cube .Wood)
      (by decide) (by decide) (by decide)).2,
   by decide⟩

/-- Claim C9: frame on success — placing a resource on an in-bounds empty
cell returns `Ok`, the cell then reads `Cube(r)`, and every other in-bounds
cell reads exactly what it read before. -/
theorem claim_C9_place_success_frame (b : Board) (x y : Nat) (r : Resource)
    (hx : x < 4) (hy : y < 4) (hempty : b.get_piece x y = some none) :
    ∃ b2, b.place_piece x y r = .ok b2 ∧
      b2.get_piece x y = some (some (.Cube r)) ∧
      ∀ x2 y2, x2 < 4 → y2 < 4 → (x2, y2) ≠ (x, y) →
        b2.get_piece x2 y2 = b.get_piece x2 y2 := by
  have hcond : ¬ (x > BOARD_WIDTH ∨ y > BOARD_HEIGHT) := by
    simp only [BOARD_WIDTH, BOARD_HEIGHT]
    omega
  have hget : b.board.get? (Board.get_board_index x y) = some none := hempty
  have hlt : Board.get_board_index x y < b.board.length := by
    by_contra hge
    rw [List.get?_eq_none.mpr (by omega)] at hget
    exact Option.noConfusion hget
  refine ⟨⟨b.board.set (Board.get_board_index x y) (some (.Cube r))⟩, ?_, ?_, ?_⟩
  · simp only [Board.place_piece, if_neg hcond, hget, Option.isSome_none]
    rfl
  · simp only [Board.get_piece]
    exact List.get?_set_eq_of_lt _ hlt
  · intro x2 y2 hx2 hy2 hne
    have hne2 : ¬ (x2 = x ∧ y2 = y) := by
      intro hand
      exact hne (by simp [hand.1, hand.2])
    have hidx : Board.get_board_index x y ≠ Board.get_board_index x2 y2 := by
      simp only [Board.get_board_index, BOARD_WIDTH]
      omega
    simp only [Board.get_piece]
    exact List.get?_set_ne _ _ hidx

/-- Witness for claim C9: Brick placed at `(0,0)` on the empty board. -/
theorem claim_C9_witness :
    ∃ b2, Board.new.place_piece 0 0 .Brick = .ok b2 ∧
      b2.get_piece 0 0 = some (some (.Cube .Brick)) ∧
      ∀ x2 y2, x2 < 4 → y2 < 4 → (x2, y2) ≠ (0, 0) →
        b2.get_piece x2 y2 = Board.new.get_piece x2 y2 :=
  claim_C9_place_success_frame Board.new 0 0 .Brick
    (by decide) (by decide) (by decide)

/-- Claim C10: every placement template generated from an oriented pattern
`p` has exactly `p.width * p.height` entries, and its board coordinates are
pairwise distinct. -/
theorem claim_C10_template_size_distinct :
    ∀ b : Building, ∀ p ∈ b.rotations, ∀ t ∈ Building.templatesFor p,
      t.length = p.width * p.height ∧ (t.map Prod.fst).Nodup := by
  intro b
  cases b <;> decide

/-- Witness for claim C10 at the Well's first template. -/
theorem claim_C10_witness :
    ([((0, 0), some Resource.Wood), ((1, 0), some Resource.Stone)] :
        List ((Nat × Nat) × Option Resource)).length =
      (Building.pattern .Well).width * (Building.pattern .Well).height ∧
      (([((0, 0), some Resource.Wood), ((1, 0), some Resource.Stone)] :
        List ((Nat × Nat) × Option Resource)).map Prod.fst).Nodup :=
  claim_C10_template_size_distinct .Well (Building.pattern .Well) (by decide)
    [((0, 0), some .Wood), ((1, 0), some .Stone)] (by decide)

end TinyTowns
